import Mathlib

/-!
Verification of the usage-accounting and quota-enforcement subsystem of the
corp-bullshifter bot: the Redis-backed daily free-pool limiter
(internal/ratelimit/redis.go), the PostgreSQL subscription ledger
(internal/storage/postgres.go), and the per-request accounting orchestrator
(internal/bot/handlers.go, HandleTextMessage).

Machine integers of the Go source are modelled as Int (token counts can go
negative through AdjustUsage). The Redis token and request counters for one
user and one calendar day are modelled as a LimiterState; an absent key reads
as 0, exactly as a redis.Nil GET does in the source. Key TTLs are tracked as
hour counts so that the re-arming of the 48-hour expiry performed by the
source is visible in the state.
-/

/-- State of the per-user-per-day Redis counters: the token counter
(user:ID:tokens:DATE), the request counter (user:ID:requests:DATE), and the
TTL each key currently carries (0 for a key with no expiry set yet; a missing
key reads as value 0). -/
structure LimiterState where
  tokens : Int
  requests : Int
  tokenTTLHours : Int
  requestTTLHours : Int
deriving Repr, DecidableEq

/-- CheckAndReserve from internal/ratelimit/redis.go: read the current token
count; if current + estimated exceeds the daily limit, return allowed=false
with the clamped remaining amount and do not mutate; otherwise INCRBY the
token key by the estimate, set its expiry to 48 hours, and return allowed=true
with the clamped remaining. Returns (allowed, remaining, new state). -/
def CheckAndReserve (dailyLimit : Int) (st : LimiterState) (estimatedTokens : Int) :
    Bool × Int × LimiterState :=
  let currentTokens := st.tokens
  if currentTokens + estimatedTokens > dailyLimit then
    let remaining := dailyLimit - currentTokens
    (false, if remaining < 0 then 0 else remaining, st)
  else
    let newTotal := currentTokens + estimatedTokens
    let remaining := dailyLimit - newTotal
    (true, if remaining < 0 then 0 else remaining,
     { st with tokens := newTotal, tokenTTLHours := 48 })

/-- AdjustUsage from internal/ratelimit/redis.go: INCRBY the token key by a
signed adjustment and re-arm its 48-hour expiry. -/
def AdjustUsage (st : LimiterState) (adjustment : Int) : LimiterState :=
  { st with tokens := st.tokens + adjustment, tokenTTLHours := 48 }

/-- IncrementRequests from internal/ratelimit/redis.go: INCR the request key
and re-arm its 48-hour expiry. -/
def IncrementRequests (st : LimiterState) : LimiterState :=
  { st with requests := st.requests + 1, requestTTLHours := 48 }

/-- GetUsage from internal/ratelimit/redis.go: returns (request count, tokens
used, remaining tokens) with remaining clamped at 0. -/
def GetUsage (dailyLimit : Int) (st : LimiterState) : Int × Int × Int :=
  let remaining := dailyLimit - st.tokens
  (st.requests, st.tokens, if remaining < 0 then 0 else remaining)

/-- A row of the subscriptions table (internal/storage/postgres.go): at most
one row per user, holding tokens_granted, tokens_used and expires_at.
Timestamps are modelled as Int instants. -/
structure Subscription where
  tokensGranted : Int
  tokensUsed : Int
  expiresAt : Int
deriving Repr, DecidableEq

/-- RemainingTokens from internal/storage/postgres.go:
tokens_granted - tokens_used. -/
def RemainingTokens (s : Subscription) : Int :=
  s.tokensGranted - s.tokensUsed

/-- UpsertSubscription from internal/storage/postgres.go: INSERT ... ON
CONFLICT (user_id) DO UPDATE, which in both arms sets tokens_used = 0,
tokens_granted to the new grant and expires_at to now + duration, whatever
row (if any) was there before. -/
def UpsertSubscription (now : Int) (_prior : Option Subscription)
    (tokensGranted duration : Int) : Subscription :=
  { tokensGranted := tokensGranted, tokensUsed := 0, expiresAt := now + duration }

/-- GetActiveSubscription from internal/storage/postgres.go: returns the
user's row only when expires_at > now; an absent or expired row yields none
(the row itself is not deleted). -/
def GetActiveSubscription (now : Int) (row : Option Subscription) :
    Option Subscription :=
  match row with
  | none => none
  | some s => if s.expiresAt > now then some s else none

/-- ConsumeSubscriptionTokens from internal/storage/postgres.go: one
conditional UPDATE that adds the tokens to tokens_used only when
expires_at > now and tokens_used + tokens <= tokens_granted; when the WHERE
clause matches no row (absent row, expired, or insufficient balance) nothing
is written and consumed=false is returned. Returns (row after the call,
consumed). -/
def ConsumeSubscriptionTokens (now : Int) (row : Option Subscription)
    (tokens : Int) : Option Subscription × Bool :=
  match row with
  | none => (none, false)
  | some s =>
    if s.expiresAt > now ∧ s.tokensUsed + tokens ≤ s.tokensGranted then
      (some { s with tokensUsed := s.tokensUsed + tokens }, true)
    else
      (some s, false)

/-- A fold of ConsumeSubscriptionTokens calls over one subscription row: each
list element is (call instant, token amount). Because each call is a single
atomic conditional update on the one row, any concurrent interleaving of such
calls is exactly some sequence of them. -/
def consumeSeq (ops : List (Int × Int)) (row : Option Subscription) :
    Option Subscription :=
  ops.foldl (fun r op => (ConsumeSubscriptionTokens op.1 r op.2).1) row

/-- The ledger invariant: tokens_used never exceeds tokens_granted (vacuous
for an absent row). -/
def SubInvariant : Option Subscription → Prop
  | none => True
  | some s => s.tokensUsed ≤ s.tokensGranted

instance : DecidablePred SubInvariant := fun row =>
  match row with
  | none => inferInstanceAs (Decidable True)
  | some _ => inferInstanceAs (Decidable (_ ≤ _))

/-- truncateString from internal/bot/handlers.go (and TruncateString from
internal/storage/postgres.go): keep the string when it fits, otherwise cut it
to maxLength and append an ellipsis. -/
def truncateString (s : String) (maxLength : Nat) : String :=
  if s.length ≤ maxLength then s else s.take maxLength ++ "..."

/-- Outcome of the external rewrite call (internal/claude/client.go): on
success the rewritten text with the input and output token counts; on any
error or timeout the client returns empty text and zero token counts. -/
inductive RewriteResult where
  | ok (text : String) (inputTokens outputTokens : Int)
  | failure
deriving Repr, DecidableEq

/-- A usage_logs row as built by HandleTextMessage (internal/bot/handlers.go):
token counts, truncated previews and the success flag. -/
structure UsageLog where
  inputTokens : Int
  outputTokens : Int
  totalTokens : Int
  messagePreview : String
  responsePreview : String
  success : Bool
deriving Repr, DecidableEq

/-- Messages the handler sends back to the chat, in order. -/
inductive Reply where
  | quotaExceeded (remaining : Int)
  | apology
  | insufficientBalanceWarning
  | rewritten (text : String)
deriving Repr, DecidableEq

/-- The mutable state one HandleTextMessage call touches: the user's Redis
counters, the user's subscriptions row, and the usage_logs table (only this
user's rows are relevant). -/
structure HandlerState where
  limiter : LimiterState
  subRow : Option Subscription
  logs : List UsageLog
deriving Repr, DecidableEq

/-- Result of one HandleTextMessage call: either it runs to completion with a
final state and the replies it sent, or it panics (nil-pointer dereference),
leaving the state as it was at the point of the panic. -/
inductive HandlerOutcome where
  | done (st : HandlerState) (replies : List Reply)
  | panicked (st : HandlerState)
deriving Repr, DecidableEq

/-- The funding decision of HandleTextMessage: use the subscription exactly
when GetActiveSubscription returns a row whose remaining balance covers the
fixed 500-token estimate. -/
def useSubscriptionDecision (now : Int) (st : HandlerState) : Bool :=
  match GetActiveSubscription now st.subRow with
  | some s => decide (RemainingTokens s ≥ 500)
  | none => false

/-- The tail of HandleTextMessage from the external rewrite call onward
(internal/bot/handlers.go lines 260-338), for a request already funded
(useSub tells which pool): on call failure, refund the 500-token estimate
when free-funded, log a failed row with zero token counts, and send an
apology; on success, either atomically consume the actual cost from the
subscription (sending a warning first when the consume fails) or true-up the
free counter by actual - estimate, then increment the request counter, log a
successful row, and send the rewritten text. -/
def afterFunding (now : Int) (useSub : Bool) (messageText : String)
    (rw : RewriteResult) (st : HandlerState) (lim : LimiterState) :
    HandlerOutcome :=
  match rw with
  | RewriteResult.failure =>
    let usageLog : UsageLog :=
      { inputTokens := 0, outputTokens := 0, totalTokens := 0,
        messagePreview := truncateString messageText 500,
        responsePreview := "", success := false }
    let lim' := if useSub then lim else AdjustUsage lim (-500)
    HandlerOutcome.done
      { st with limiter := lim', logs := st.logs ++ [usageLog] }
      [Reply.apology]
  | RewriteResult.ok text inputTokens outputTokens =>
    let actualTokens := inputTokens + outputTokens
    let usageLog : UsageLog :=
      { inputTokens := inputTokens, outputTokens := outputTokens,
        totalTokens := actualTokens,
        messagePreview := truncateString messageText 500,
        responsePreview := truncateString text 500, success := true }
    if useSub then
      let r := ConsumeSubscriptionTokens now st.subRow actualTokens
      HandlerOutcome.done
        { limiter := IncrementRequests lim, subRow := r.1,
          logs := st.logs ++ [usageLog] }
        (if r.2 then [Reply.rewritten text]
         else [Reply.insufficientBalanceWarning, Reply.rewritten text])
    else
      let lim' := IncrementRequests (AdjustUsage lim (actualTokens - 500))
      HandlerOutcome.done
        { limiter := lim', subRow := st.subRow, logs := st.logs ++ [usageLog] }
        [Reply.rewritten text]

/-- HandleTextMessage from internal/bot/handlers.go. userOk models whether
GetOrCreateUser succeeded; when it fails the source merely logs the error and
continues with a nil user pointer, so the very next use of the pointer
(user.ID in the GetActiveSubscription call) panics — modelled as the panicked
outcome with the state untouched. Otherwise: decide the funding source; when
free-funded, CheckAndReserve the 500-token estimate and, if rejected, send
the quota message and stop; past the funding decision, continue with
afterFunding. -/
def HandleTextMessage (dailyLimit now : Int) (userOk : Bool)
    (messageText : String) (rw : RewriteResult) (st : HandlerState) :
    HandlerOutcome :=
  if userOk then
    let useSub := useSubscriptionDecision now st
    if useSub then
      afterFunding now true messageText rw st st.limiter
    else
      let r := CheckAndReserve dailyLimit st.limiter 500
      if r.1 then
        afterFunding now false messageText rw st r.2.2
      else
        HandlerOutcome.done { st with limiter := r.2.2 }
          [Reply.quotaExceeded r.2.1]
  else
    HandlerOutcome.panicked st

/-- Final state of a handler outcome. -/
def outcomeState : HandlerOutcome → HandlerState
  | HandlerOutcome.done st _ => st
  | HandlerOutcome.panicked st => st

/-- Replies sent by a handler outcome (none when it panicked). -/
def outcomeReplies : HandlerOutcome → List Reply
  | HandlerOutcome.done _ rs => rs
  | HandlerOutcome.panicked _ => []

/-- Empty starting state: no Redis keys for the day, no subscription row, no
usage_logs rows. -/
def initialHandlerState : HandlerState :=
  HandlerState.mk (LimiterState.mk 0 0 0 0) none []

/-- One request of the exhaustion scenario: daily limit 10000, the fixed
500-token estimate, and an external call that succeeds with actual cost
exactly 250 + 250 = 500. -/
def scenarioStep (st : HandlerState) : HandlerOutcome :=
  HandleTextMessage 10000 0 true "please rephrase this"
    (RewriteResult.ok "Certainly." 250 250) st

/-- Final state after one scenario request. -/
def scenarioState (st : HandlerState) : HandlerState :=
  outcomeState (scenarioStep st)

/-- State after n sequential scenario requests from the empty state. -/
def runRequests : Nat → HandlerState
  | 0 => initialHandlerState
  | n + 1 => scenarioState (runRequests n)

theorem clamp_nonneg_eq_max (r : Int) : (if r < 0 then 0 else r) = max 0 r := by
  rcases lt_or_le r 0 with h | h
  · rw [if_pos h, max_eq_left h.le]
  · rw [if_neg (not_lt.mpr h), max_eq_right h]

theorem checkAndReserve_of_gt (dailyLimit : Int) (st : LimiterState) (est : Int)
    (h : st.tokens + est > dailyLimit) :
    CheckAndReserve dailyLimit st est =
      (false, if dailyLimit - st.tokens < 0 then 0 else dailyLimit - st.tokens, st) := by
  simp only [CheckAndReserve]
  rw [if_pos h]

theorem checkAndReserve_of_le (dailyLimit : Int) (st : LimiterState) (est : Int)
    (h : st.tokens + est ≤ dailyLimit) :
    CheckAndReserve dailyLimit st est =
      (true,
       if dailyLimit - (st.tokens + est) < 0 then 0 else dailyLimit - (st.tokens + est),
       { st with tokens := st.tokens + est, tokenTTLHours := 48 }) := by
  simp only [CheckAndReserve]
  rw [if_neg (not_lt.mpr h)]

theorem consume_preserves (now : Int) (row : Option Subscription) (t : Int)
    (h : SubInvariant row) :
    SubInvariant (ConsumeSubscriptionTokens now row t).1 := by
  match row with
  | none => exact h
  | some s =>
    simp only [ConsumeSubscriptionTokens]
    split
    · rename_i hcond
      simp only [SubInvariant]
      exact hcond.2
    · exact h

/-- Claim C1: starting from any subscription state whose tokens_used is at
most tokens_granted, any sequence of ConsumeSubscriptionTokens calls with
non-negative token amounts (covering any concurrent interleaving, since each
call is one atomic conditional update) leaves tokens_used at most
tokens_granted. -/
theorem C1_consume_never_exceeds_granted (ops : List (Int × Int))
    (row : Option Subscription)
    (hnn : ∀ p ∈ ops, (0 : Int) ≤ p.2) (hinv : SubInvariant row) :
    SubInvariant (consumeSeq ops row) := by
  induction ops generalizing row with
  | nil => exact hinv
  | cons op rest ih =>
    exact ih _ (fun p hp => hnn p (List.mem_cons_of_mem _ hp))
      (consume_preserves op.1 row op.2 hinv)

theorem C1_witness :
    (∀ p ∈ [((0 : Int), (600 : Int)), (0, 600)], (0 : Int) ≤ p.2) ∧
    SubInvariant (some (Subscription.mk 1000 0 5)) ∧
    SubInvariant (consumeSeq [(0, 600), (0, 600)] (some (Subscription.mk 1000 0 5))) :=
  ⟨by decide, by decide,
   C1_consume_never_exceeds_granted [(0, 600), (0, 600)]
     (some (Subscription.mk 1000 0 5)) (by decide) (by decide)⟩

/-- Claim C2: ConsumeSubscriptionTokens succeeds exactly when the row is
unexpired and tokens_used + tokens is at most tokens_granted; on success the
returned row carries the increased tokens_used, and on failure the row is
entirely unchanged. The closing conjuncts are the spec scenario: a
subscription-funded request (the funding decision saw an earlier balance; by
consume time the row holds tokens_granted = 1000, tokens_used = 900) with
actual cost 150 fails the consume, leaves the balance at 900/1000, and the
orchestrator still delivers the rewritten reply preceded by the
insufficient-balance warning. -/
theorem C2_consume_contract_and_scenario (s : Subscription) (now tokens : Int) :
    ((ConsumeSubscriptionTokens now (some s) tokens).2 = true ↔
      (s.expiresAt > now ∧ s.tokensUsed + tokens ≤ s.tokensGranted)) ∧
    ((ConsumeSubscriptionTokens now (some s) tokens).2 = true →
      (ConsumeSubscriptionTokens now (some s) tokens).1 =
        some { s with tokensUsed := s.tokensUsed + tokens }) ∧
    ((ConsumeSubscriptionTokens now (some s) tokens).2 = false →
      (ConsumeSubscriptionTokens now (some s) tokens).1 = some s) ∧
    ((ConsumeSubscriptionTokens 0 (some (Subscription.mk 1000 900 100)) 150).2 =
      false) ∧
    (afterFunding 0 true "status update please"
        (RewriteResult.ok "Noted, thank you." 90 60)
        (HandlerState.mk (LimiterState.mk 0 0 0 0)
          (some (Subscription.mk 1000 900 100)) [])
        (LimiterState.mk 0 0 0 0) =
      HandlerOutcome.done
        (HandlerState.mk (LimiterState.mk 0 1 0 48)
          (some (Subscription.mk 1000 900 100))
          [UsageLog.mk 90 60 150 "status update please" "Noted, thank you." true])
        [Reply.insufficientBalanceWarning, Reply.rewritten "Noted, thank you."]) := by
  refine ⟨?_, ?_, ?_, by decide, by decide⟩
  · simp only [ConsumeSubscriptionTokens]
    split
    · rename_i hcond
      simpa using hcond
    · rename_i hcond
      simpa using hcond
  · simp only [ConsumeSubscriptionTokens]
    split
    · intro _
      rfl
    · intro h
      simp at h
  · simp only [ConsumeSubscriptionTokens]
    split
    · intro h
      simp at h
    · intro _
      rfl

theorem C2_witness :
    (ConsumeSubscriptionTokens 0 (some (Subscription.mk 1000 0 100)) 150).2 = true ∧
    (ConsumeSubscriptionTokens 0 (some (Subscription.mk 1000 0 100)) 150).1 =
      some (Subscription.mk 1000 150 100) :=
  ⟨by decide,
   (C2_consume_contract_and_scenario (Subscription.mk 1000 0 100) 0 150).2.1
     (by decide)⟩

/-- Claim C3: CheckAndReserve returns allowed=false with remaining clamped to
max(0, limit - current) and an unmutated counter when current + estimate
would exceed the daily limit; otherwise it adds the estimate to the counter,
re-arms the 48-hour expiry, and returns allowed=true with the updated clamped
remaining. -/
theorem C3_checkAndReserve_contract (dailyLimit : Int) (st : LimiterState)
    (est : Int) :
    (st.tokens + est > dailyLimit →
      CheckAndReserve dailyLimit st est =
        (false, max 0 (dailyLimit - st.tokens), st)) ∧
    (st.tokens + est ≤ dailyLimit →
      CheckAndReserve dailyLimit st est =
        (true, max 0 (dailyLimit - (st.tokens + est)),
         { st with tokens := st.tokens + est, tokenTTLHours := 48 })) := by
  constructor
  · intro h
    rw [checkAndReserve_of_gt dailyLimit st est h, clamp_nonneg_eq_max]
  · intro h
    rw [checkAndReserve_of_le dailyLimit st est h, clamp_nonneg_eq_max]

theorem C3_witness :
    (((9 : Int) + 5 > 10) ∧
      CheckAndReserve 10 (LimiterState.mk 9 0 0 0) 5 =
        (false, max 0 (10 - 9), LimiterState.mk 9 0 0 0)) ∧
    (((2 : Int) + 5 ≤ 10) ∧
      CheckAndReserve 10 (LimiterState.mk 2 0 0 0) 5 =
        (true, max 0 (10 - (2 + 5)), LimiterState.mk 7 0 48 0)) :=
  ⟨⟨by decide, (C3_checkAndReserve_contract 10 (LimiterState.mk 9 0 0 0) 5).1
      (by decide)⟩,
   ⟨by decide, (C3_checkAndReserve_contract 10 (LimiterState.mk 2 0 0 0) 5).2
      (by decide)⟩⟩

/-- Claim C4: a CheckAndReserve that succeeded, immediately followed by the
full refund AdjustUsage(-estimate), leaves the token counter at its value
before the pair. (In the handler the refund is issued only on the path where
the reservation succeeded, handlers.go lines 283-288.) -/
theorem C4_reserve_refund_identity (dailyLimit : Int) (st : LimiterState)
    (est : Int) (h : (CheckAndReserve dailyLimit st est).1 = true) :
    (AdjustUsage (CheckAndReserve dailyLimit st est).2.2 (-est)).tokens =
      st.tokens := by
  by_cases hc : st.tokens + est > dailyLimit
  · rw [checkAndReserve_of_gt dailyLimit st est hc] at h
    simp at h
  · rw [checkAndReserve_of_le dailyLimit st est (not_lt.mp hc)]
    show st.tokens + est + -est = st.tokens
    omega

theorem C4_witness :
    (CheckAndReserve 10 (LimiterState.mk 2 0 0 0) 5).1 = true ∧
    (AdjustUsage (CheckAndReserve 10 (LimiterState.mk 2 0 0 0) 5).2.2 (-5)).tokens =
      (LimiterState.mk 2 0 0 0).tokens :=
  ⟨by decide, C4_reserve_refund_identity 10 (LimiterState.mk 2 0 0 0) 5 (by decide)⟩

/-- Claim C5: with the configured daily limit of 10000 and the fixed 500-token
estimate, 20 sequential successful requests (each reserving 500 and settling
at an actual cost of exactly 500) exhaust the quota exactly: the counter sits
at 10000 and GetUsage reports remaining = 0; the 21st request is rejected
with remaining = 0 and mutates nothing. -/
theorem C5_exact_exhaustion_scenario :
    (runRequests 20).limiter.tokens = 10000 ∧
    (GetUsage 10000 (runRequests 20).limiter).2.2 = 0 ∧
    outcomeReplies (scenarioStep (runRequests 20)) = [Reply.quotaExceeded 0] ∧
    (runRequests 21).limiter.tokens = 10000 ∧
    (runRequests 21).limiter.requests = 20 := by
  refine ⟨by decide, by decide, by decide, by decide, by decide⟩

/-- Claim C6: a free-pool-funded request (no usable subscription, reservation
allowed) whose external rewrite call fails ends with the token counter back
at its pre-request value (the 500-token reservation fully refunded through
AdjustUsage), the subscription untouched, and one appended usage_logs row
with zero token counts and success = false; the user gets the apology. -/
theorem C6_failure_refund (dailyLimit now : Int) (st : HandlerState)
    (msg : String)
    (hfree : useSubscriptionDecision now st = false)
    (hroom : st.limiter.tokens + 500 ≤ dailyLimit) :
    ∃ st' : HandlerState,
      HandleTextMessage dailyLimit now true msg RewriteResult.failure st =
        HandlerOutcome.done st' [Reply.apology] ∧
      st'.limiter.tokens = st.limiter.tokens ∧
      st'.subRow = st.subRow ∧
      st'.logs = st.logs ++ [UsageLog.mk 0 0 0 (truncateString msg 500) "" false] := by
  refine ⟨{ st with
      limiter := { st.limiter with
                     tokens := st.limiter.tokens + 500 + -500
                     tokenTTLHours := 48 }
      logs := st.logs ++ [UsageLog.mk 0 0 0 (truncateString msg 500) "" false] },
    ?_, ?_, rfl, rfl⟩
  · simp [HandleTextMessage, hfree, checkAndReserve_of_le _ _ _ hroom,
      afterFunding, AdjustUsage]
  · show st.limiter.tokens + 500 + -500 = st.limiter.tokens
    omega

theorem C6_witness :
    useSubscriptionDecision 0 initialHandlerState = false ∧
    initialHandlerState.limiter.tokens + 500 ≤ 10000 ∧
    (∃ st' : HandlerState,
      HandleTextMessage 10000 0 true "quick one" RewriteResult.failure
          initialHandlerState =
        HandlerOutcome.done st' [Reply.apology] ∧
      st'.limiter.tokens = initialHandlerState.limiter.tokens ∧
      st'.subRow = initialHandlerState.subRow ∧
      st'.logs = initialHandlerState.logs ++
        [UsageLog.mk 0 0 0 (truncateString "quick one" 500) "" false]) :=
  ⟨by decide, by decide,
   C6_failure_refund 10000 0 initialHandlerState "quick one" (by decide) (by decide)⟩

/-- Claim C7, counterexample: a request from the empty state (free-funded,
reservation allowed) whose external call fails does proceed past the funding
decision to the external call — it writes a usage_logs row and sends the
apology — yet the informational request counter stays at 0: the handler
returns on the failure path before reaching IncrementRequests
(handlers.go line 298 precedes line 319), so the counter is not incremented
"regardless of which branch is taken afterwards" as the claim states. -/
theorem C7_counterexample_failure_skips_counter :
    outcomeReplies (HandleTextMessage 10000 0 true "need this polished"
        RewriteResult.failure initialHandlerState) = [Reply.apology] ∧
    (outcomeState (HandleTextMessage 10000 0 true "need this polished"
        RewriteResult.failure initialHandlerState)).logs.length = 1 ∧
    (outcomeState (HandleTextMessage 10000 0 true "need this polished"
        RewriteResult.failure initialHandlerState)).limiter.requests = 0 := by
  refine ⟨by decide, by decide, by decide⟩

/-- Claim C7 as amended: every request that proceeds past the funding
decision to the external rewrite call writes exactly one UsageLogEntry
regardless of the branch taken afterwards, but the informational request
counter is incremented only on the external-call success branches (either
funding mode), not on the failure branch. -/
theorem C7_amended_log_always_counter_on_success (dailyLimit now : Int)
    (st : HandlerState) (msg : String) (rw : RewriteResult)
    (hpast : useSubscriptionDecision now st = true ∨
      st.limiter.tokens + 500 ≤ dailyLimit) :
    ∃ entry : UsageLog,
      (outcomeState (HandleTextMessage dailyLimit now true msg rw st)).logs =
        st.logs ++ [entry] ∧
      (outcomeState (HandleTextMessage dailyLimit now true msg rw st)).limiter.requests =
        (match rw with
         | RewriteResult.ok _ _ _ => st.limiter.requests + 1
         | RewriteResult.failure => st.limiter.requests) := by
  by_cases hdec : useSubscriptionDecision now st = true
  · cases rw with
    | failure =>
      refine ⟨UsageLog.mk 0 0 0 (truncateString msg 500) "" false, ?_, ?_⟩ <;>
        simp [HandleTextMessage, hdec, afterFunding, outcomeState]
    | ok text inT outT =>
      refine ⟨UsageLog.mk inT outT (inT + outT) (truncateString msg 500)
          (truncateString text 500) true, ?_, ?_⟩ <;>
        simp [HandleTextMessage, hdec, afterFunding, outcomeState, IncrementRequests]
  · have hdec' : useSubscriptionDecision now st = false := by simpa using hdec
    have hroom : st.limiter.tokens + 500 ≤ dailyLimit := hpast.resolve_left hdec
    cases rw with
    | failure =>
      refine ⟨UsageLog.mk 0 0 0 (truncateString msg 500) "" false, ?_, ?_⟩ <;>
        simp [HandleTextMessage, hdec', checkAndReserve_of_le _ _ _ hroom,
          afterFunding, AdjustUsage, outcomeState]
    | ok text inT outT =>
      refine ⟨UsageLog.mk inT outT (inT + outT) (truncateString msg 500)
          (truncateString text 500) true, ?_, ?_⟩ <;>
        simp [HandleTextMessage, hdec', checkAndReserve_of_le _ _ _ hroom,
          afterFunding, AdjustUsage, IncrementRequests, outcomeState]

theorem C7_amended_witness :
    (initialHandlerState.limiter.tokens + 500 ≤ 10000) ∧
    (∃ entry : UsageLog,
      (outcomeState (HandleTextMessage 10000 0 true "hello" RewriteResult.failure
          initialHandlerState)).logs = initialHandlerState.logs ++ [entry] ∧
      (outcomeState (HandleTextMessage 10000 0 true "hello" RewriteResult.failure
          initialHandlerState)).limiter.requests =
        initialHandlerState.limiter.requests) :=
  ⟨by decide,
   C7_amended_log_always_counter_on_success 10000 0 initialHandlerState "hello"
     RewriteResult.failure (Or.inr (by decide))⟩

/-- Claim C8: the spec requires every error arising during a request's
accounting — including a failure of the user resolve/create step — to be
caught and turned into a quota message or a generic apology, with nothing
escaping the handler. The code violates this: when GetOrCreateUser fails,
HandleTextMessage (handlers.go lines 205-208) only logs the error and keeps
going with a nil *storage.User, and the very next use of the pointer
(user.ID in the GetActiveSubscription call, line 215) dereferences nil and
panics; the goroutine spawned in cmd/bot/main.go line 105 has no recover, so
the panic kills the process. Evaluated here on a concrete request whose user
resolve fails: the outcome is the panic, not a quota message or apology. -/
theorem C8_user_resolve_failure_panics :
    HandleTextMessage 10000 0 false "hello there" RewriteResult.failure
        initialHandlerState =
      HandlerOutcome.panicked initialHandlerState := rfl

/-- Claim C10: a subscription-funded request never touches the free-pool
daily token counter (neither its value nor its expiry changes on the success,
failure, or consume-failed branch), and a request not funded by the
subscription never mutates the subscriptions row (on the success, failure,
and quota-rejected branches alike). -/
theorem C10_funding_frame (dailyLimit now : Int) (st : HandlerState)
    (msg : String) (rw : RewriteResult) :
    (useSubscriptionDecision now st = true →
      (outcomeState (HandleTextMessage dailyLimit now true msg rw st)).limiter.tokens =
        st.limiter.tokens ∧
      (outcomeState (HandleTextMessage dailyLimit now true msg rw st)).limiter.tokenTTLHours =
        st.limiter.tokenTTLHours) ∧
    (useSubscriptionDecision now st = false →
      (outcomeState (HandleTextMessage dailyLimit now true msg rw st)).subRow =
        st.subRow) := by
  constructor
  · intro hdec
    cases rw with
    | failure =>
      simp [HandleTextMessage, hdec, afterFunding, outcomeState]
    | ok text inT outT =>
      simp [HandleTextMessage, hdec, afterFunding, outcomeState, IncrementRequests]
  · intro hdec
    by_cases hc : st.limiter.tokens + 500 > dailyLimit
    · simp [HandleTextMessage, hdec, checkAndReserve_of_gt _ _ _ hc, outcomeState]
    · have hle : st.limiter.tokens + 500 ≤ dailyLimit := not_lt.mp hc
      cases rw with
      | failure =>
        simp [HandleTextMessage, hdec, checkAndReserve_of_le _ _ _ hle,
          afterFunding, AdjustUsage, outcomeState]
      | ok text inT outT =>
        simp [HandleTextMessage, hdec, checkAndReserve_of_le _ _ _ hle,
          afterFunding, AdjustUsage, IncrementRequests, outcomeState]

theorem C10_witness :
    useSubscriptionDecision 0 initialHandlerState = false ∧
    (outcomeState (HandleTextMessage 10000 0 true "hey" RewriteResult.failure
        initialHandlerState)).subRow = initialHandlerState.subRow :=
  ⟨by decide,
   (C10_funding_frame 10000 0 initialHandlerState "hey" RewriteResult.failure).2
     (by decide)⟩

/-- Claim C9: whatever subscription row (absent, active, or expired, with any
tokens_used) the user had before, UpsertSubscription leaves a row with
tokens_used = 0, tokens_granted set to the new grant and expires_at set to
now + duration: renewal replaces the period wholesale and is not additive. -/
theorem C9_upsert_resets_wholesale (now : Int) (prior : Option Subscription)
    (tokensGranted duration : Int) :
    (UpsertSubscription now prior tokensGranted duration).tokensUsed = 0 ∧
    (UpsertSubscription now prior tokensGranted duration).tokensGranted =
      tokensGranted ∧
    (UpsertSubscription now prior tokensGranted duration).expiresAt =
      now + duration :=
  ⟨rfl, rfl, rfl⟩
